import Mathlib

/-!
Verification development for the AERAS puller app's ride offer and
lifecycle synchronization engine.

Conventions of the shallow embedding:
* JS numbers that are always integral (ids, points, epoch-millisecond
  timestamps) are modelled as `Int`; geographic coordinates are modelled
  as `ℚ` except in the haversine distance, which is modelled over `ℝ`.
* A JS value that may be `undefined`/`null` is modelled as `Option _`
  (`none` stands for both; the nullish-coalescing operator `??` is
  `Option.getD` / `<|>`, and the truthiness-based `||` on numbers gets a
  dedicated function that also treats `0` as falsy).
* ISO date strings are modelled by their parsed epoch-millisecond value;
  an unparsable date (JS `NaN`) is `none`.
* Fallible async calls are modelled by passing the resolved server
  response as an `Except ApiError _` argument; a thrown/rejected request
  is the `Except.error` case, which the handlers catch.
-/

namespace AerasPuller

/-- Error payload of a rejected request (message string). -/
abbrev ApiError := String

/-- Model of the `RideStatus` enum from the app's type definitions. -/
inductive RideStatus where
  | pending_user_confirmation
  | searching
  | accepted
  | active
  | completed
  | cancelled
  | expired
deriving DecidableEq, Repr

/-- Model of `LocationBlock` from the app's type definitions; the backend block
shape (`latitude`/`longitude`/`destinationName`) is collapsed onto the
same record, with `centerLat`/`centerLon` holding the coordinates. -/
structure LocationBlock where
  blockId : String
  name : String
  centerLat : ℚ
  centerLon : ℚ
deriving DecidableEq, Repr

/-- Model of `Puller` from the app's type definitions. -/
structure Puller where
  id : Int
  name : String
  phone : String
  pointsBalance : Int
  isOnline : Bool
  isActive : Bool
  lastKnownLat : Option ℚ
  lastKnownLon : Option ℚ
deriving DecidableEq, Repr

/-- Model of `Ride` from the app's type definitions.  Geographic fields are
`Option` because backend payloads can omit them at runtime (this is what
the merge guards in `App.tsx` defend against).  `estimatedPoints` is the
dynamic property attached to an accepted ride by
`handleAcceptRideFromModal` (absent unless set there). -/
structure Ride where
  id : Int
  status : RideStatus
  requestTime : Option Int
  acceptTime : Option Int
  pickupTime : Option Int
  completionTime : Option Int
  pointsAwarded : Option Int
  pickupBlock : Option LocationBlock
  destinationBlock : Option LocationBlock
  puller : Option Puller
  pickupLat : Option ℚ
  pickupLon : Option ℚ
  destinationLat : Option ℚ
  destinationLon : Option ℚ
  finalLat : Option ℚ
  finalLon : Option ℚ
  estimatedPoints : Option Int
deriving DecidableEq, Repr

/-- Model of `RideRequest` (an offer) from the app's type definitions;
`expiresAt` is the parsed epoch-millisecond deadline. -/
structure RideRequest where
  id : Int
  pickupBlock : LocationBlock
  destinationBlock : LocationBlock
  estimatedPoints : Int
  pickupLat : ℚ
  pickupLon : ℚ
  expiresAt : Int
deriving DecidableEq, Repr

/-- The Zustand `AppStore` slice the synchronization engine owns
(`store/appStore.ts`), extended with the `showAvailableRidesModal`
component state of `App.tsx` that the accept handler toggles. -/
structure AppStore where
  puller : Option Puller
  currentRide : Option Ride
  pendingRequest : Option RideRequest
  availableRides : List RideRequest
  showRideCompleteModal : Bool
  lastCompletedRide : Option Ride
  showAvailableRidesModal : Bool
deriving DecidableEq, Repr

/-- The store's `initialState` (connectivity/location fields that no
claim touches are omitted). -/
def initialStore : AppStore :=
  { puller := none
    currentRide := none
    pendingRequest := none
    availableRides := []
    showRideCompleteModal := false
    lastCompletedRide := none
    showAvailableRidesModal := false }

/-- Model of `addAvailableRide` from `store/appStore.ts`: append the offer unless
an entry with the same id is already present (first write wins). -/
def addAvailableRide (s : AppStore) (ride : RideRequest) : AppStore :=
  if s.availableRides.any (fun r => r.id == ride.id) then s
  else { s with availableRides := s.availableRides ++ [ride] }

/-- Model of `removeAvailableRide` from `store/appStore.ts`: drop every entry
with the given id. -/
def removeAvailableRide (s : AppStore) (rideId : Int) : AppStore :=
  { s with availableRides := s.availableRides.filter (fun r => r.id != rideId) }

/-- Clear `pendingRequest` when it matches the given id (the common
"only clear if it matches" step of `handleRideFilled` and
`checkExpiredRides` in `App.tsx`). -/
def clearMatchingPending (s : AppStore) (rideId : Int) : AppStore :=
  match s.pendingRequest with
  | some p => if p.id = rideId then { s with pendingRequest := none } else s
  | none => s

/-- Model of `handleRideFilled` from `App.tsx`: on a `ride_filled` event, remove
the offer from the available set and clear a matching pending request.
Nothing about the withdrawal is recorded anywhere else. -/
def handleRideFilled (s : AppStore) (rideId : Int) : AppStore :=
  clearMatchingPending (removeAvailableRide s rideId) rideId

/-- One iteration of the `availableRides.forEach` body of
`checkExpiredRides` in `App.tsx`: if the sweep time has reached the
offer's deadline (`now >= expiresAt`), remove it by id and clear a
matching pending request. -/
def expireStep (now : Int) (s : AppStore) (r : RideRequest) : AppStore :=
  if r.expiresAt ≤ now then clearMatchingPending (removeAvailableRide s r.id) r.id
  else s

/-- Model of `checkExpiredRides` from `App.tsx`: sweep the snapshot of the offer
set (the interval timer runs this every 1000 ms), withdrawing every
offer whose deadline has passed. -/
def checkExpiredRides (now : Int) (s : AppStore) : AppStore :=
  s.availableRides.foldl (expireStep now) s

/-- The outbound accept request issued by `handleAcceptRideFromModal`
(`apiService.acceptRide(pickupBlockId, destinationBlockId, pullerId)`). -/
structure AcceptCall where
  startBlockId : String
  destinationBlockId : String
  pullerId : Int
deriving DecidableEq, Repr

/-- Model of `handleAcceptRideFromModal` from `App.tsx`.  `response` is the
resolved result of the awaited accept request; it is only consulted
after the request was issued, so the returned call list records whether
any network traffic was produced.  The handler returns early (no call,
state unchanged) only when no puller is logged in or the offer id is
not in the available set; it never inspects `currentRide`. -/
def handleAcceptRideFromModal (s : AppStore) (rideId : Int)
    (response : Except ApiError Ride) : AppStore × List AcceptCall :=
  match s.puller with
  | none => (s, [])
  | some puller =>
    match s.availableRides.find? (fun r => r.id == rideId) with
    | none => (s, [])
    | some rideRequest =>
      let call : AcceptCall :=
        { startBlockId := rideRequest.pickupBlock.blockId
          destinationBlockId := rideRequest.destinationBlock.blockId
          pullerId := puller.id }
      match response with
      | .ok acceptedRide =>
        let acceptedRide := { acceptedRide with estimatedPoints := some rideRequest.estimatedPoints }
        let s := { s with currentRide := some acceptedRide }
        let s := removeAvailableRide s rideId
        ({ s with showAvailableRidesModal := false }, [call])
      | .error _ =>
        (removeAvailableRide s rideId, [call])

/-- Model of `handleAcceptRide` from `App.tsx` (MQTT-only mode): accept the
pending request by building a mock accepted ride locally; no network
call is made.  `now` is the epoch-millisecond time used for the
`new Date().toISOString()` timestamps. -/
def handleAcceptRide (s : AppStore) (now : Int) : AppStore :=
  match s.pendingRequest, s.puller with
  | some pendingRequest, some puller =>
    let acceptedRide : Ride :=
      { id := pendingRequest.id
        status := .accepted
        requestTime := some now
        acceptTime := some now
        pickupTime := none
        completionTime := none
        pointsAwarded := none
        pickupBlock := some pendingRequest.pickupBlock
        destinationBlock := some pendingRequest.destinationBlock
        puller := some puller
        pickupLat := some pendingRequest.pickupLat
        pickupLon := some pendingRequest.pickupLon
        destinationLat := some pendingRequest.destinationBlock.centerLat
        destinationLon := some pendingRequest.destinationBlock.centerLon
        finalLat := none
        finalLon := none
        estimatedPoints := none }
    let s := { s with currentRide := some acceptedRide, pendingRequest := none }
    removeAvailableRide s pendingRequest.id
  | _, _ => s

/-- A server ride payload whose fields may each be omitted (or null):
the shape merged into the local ride by object spread in
`handleConfirmPickup` and `handleCompleteRide`. -/
structure PartialRide where
  id : Option Int
  status : Option RideStatus
  requestTime : Option Int
  acceptTime : Option Int
  pickupTime : Option Int
  completionTime : Option Int
  pointsAwarded : Option Int
  pickupBlock : Option LocationBlock
  destinationBlock : Option LocationBlock
  puller : Option Puller
  pickupLat : Option ℚ
  pickupLon : Option ℚ
  destinationLat : Option ℚ
  destinationLon : Option ℚ
  finalLat : Option ℚ
  finalLon : Option ℚ
  estimatedPoints : Option Int
deriving DecidableEq, Repr

/-- The empty server payload (every field omitted). -/
def PartialRide.empty : PartialRide :=
  { id := none, status := none, requestTime := none, acceptTime := none
    pickupTime := none, completionTime := none, pointsAwarded := none
    pickupBlock := none, destinationBlock := none, puller := none
    pickupLat := none, pickupLon := none, destinationLat := none
    destinationLon := none, finalLat := none, finalLon := none
    estimatedPoints := none }

/-- JS object spread `{...cur, ...upd}`: a field present in `upd`
overrides, an omitted field keeps the local value. -/
def mergeSpread (cur : Ride) (upd : PartialRide) : Ride :=
  { id := upd.id.getD cur.id
    status := upd.status.getD cur.status
    requestTime := upd.requestTime <|> cur.requestTime
    acceptTime := upd.acceptTime <|> cur.acceptTime
    pickupTime := upd.pickupTime <|> cur.pickupTime
    completionTime := upd.completionTime <|> cur.completionTime
    pointsAwarded := upd.pointsAwarded <|> cur.pointsAwarded
    pickupBlock := upd.pickupBlock <|> cur.pickupBlock
    destinationBlock := upd.destinationBlock <|> cur.destinationBlock
    puller := upd.puller <|> cur.puller
    pickupLat := upd.pickupLat <|> cur.pickupLat
    pickupLon := upd.pickupLon <|> cur.pickupLon
    destinationLat := upd.destinationLat <|> cur.destinationLat
    destinationLon := upd.destinationLon <|> cur.destinationLon
    finalLat := upd.finalLat <|> cur.finalLat
    finalLon := upd.finalLon <|> cur.finalLon
    estimatedPoints := upd.estimatedPoints <|> cur.estimatedPoints }

/-- Model of `handleConfirmPickup` from `App.tsx`: after the pickup request
resolves, merge the backend fields by spread but explicitly keep the
frontend coordinates and block objects; on a rejected request the state
is left unchanged (only an alert is shown). -/
def handleConfirmPickup (s : AppStore) (response : Except ApiError PartialRide) : AppStore :=
  match s.currentRide with
  | none => s
  | some currentRide =>
    match response with
    | .error _ => s
    | .ok updatedRide =>
      let mergedRide :=
        { mergeSpread currentRide updatedRide with
          pickupLat := currentRide.pickupLat
          pickupLon := currentRide.pickupLon
          destinationLat := currentRide.destinationLat
          destinationLon := currentRide.destinationLon
          pickupBlock := currentRide.pickupBlock
          destinationBlock := currentRide.destinationBlock }
      { s with currentRide := some mergedRide }

/-- The outbound complete request issued by `handleCompleteRide`
(`apiService.completeRide(rideId, mockLat, mockLon, overridePoints)`). -/
structure CompleteCall where
  rideId : Int
  finalLat : ℚ
  finalLon : ℚ
  pointsOverride : Option Int
deriving DecidableEq, Repr

/-- Model of `handleCompleteRide` from `App.tsx`.  The optional override sent to
the server is `estimatedPoints ?? pointsAwarded` clamped by
`Math.max(0, Math.floor(_))`; the locally credited amount is
`completedRideData?.pointsAwarded ?? 0`.  On a rejected request the
state is unchanged.  `mockLat`/`mockLon` stand for
`locationService.getMockLocation()` and `now` for the
`new Date().toISOString()` completion timestamp. -/
def handleCompleteRide (s : AppStore) (mockLat mockLon : ℚ) (now : Int)
    (response : Except ApiError PartialRide) : AppStore × List CompleteCall :=
  match s.currentRide, s.puller with
  | some currentRide, some puller =>
    let overridePoints : Option Int :=
      (currentRide.estimatedPoints <|> currentRide.pointsAwarded).map (fun v => max 0 v)
    let call : CompleteCall :=
      { rideId := currentRide.id, finalLat := mockLat, finalLon := mockLon
        pointsOverride := overridePoints }
    match response with
    | .error _ => (s, [call])
    | .ok completedRideData =>
      let mergedCompletedRide :=
        { mergeSpread currentRide completedRideData with
          status := .completed
          completionTime := some now
          pickupLat := completedRideData.pickupLat <|> currentRide.pickupLat
          pickupLon := completedRideData.pickupLon <|> currentRide.pickupLon
          destinationLat := completedRideData.destinationLat <|> currentRide.destinationLat
          destinationLon := completedRideData.destinationLon <|> currentRide.destinationLon
          pickupBlock := completedRideData.pickupBlock <|> currentRide.pickupBlock
          destinationBlock := completedRideData.destinationBlock <|> currentRide.destinationBlock
          finalLat := completedRideData.finalLat <|> currentRide.finalLat
          finalLon := completedRideData.finalLon <|> currentRide.finalLon }
      let awarded := completedRideData.pointsAwarded.getD 0
      let updatedPuller := { puller with pointsBalance := puller.pointsBalance + awarded }
      let completedRide := { mergedCompletedRide with puller := some updatedPuller }
      let s :=
        { s with
          puller := some updatedPuller
          lastCompletedRide := some completedRide
          showRideCompleteModal := true
          currentRide := none }
      (s, [call])
  | _, _ => (s, [])

/-- Model of `getTimeRemaining` from `utils/helpers.ts`.  The target date is the
parsed `new Date(targetDate).getTime()` value: `none` is the `NaN` of an
unparsable date, which JS propagates through the subtraction,
`Math.floor` and `Math.max` (`Math.max(0, NaN) = NaN`).  For a parsed
date the result is `Math.max(0, Math.floor((target - now) / 1000))`. -/
def getTimeRemaining (target : Option Int) (now : Int) : Option Int :=
  match target with
  | none => none
  | some t => some (max 0 (Int.fdiv (t - now) 1000))

/-- JS `a || b` on a number that may be `undefined`: `undefined` and `0`
are falsy and fall through to `b`. -/
def jsOrQ (a : Option ℚ) (b : Option ℚ) : Option ℚ :=
  match a with
  | some x => if x = 0 then b else some x
  | none => b

/-- A ride row as returned by the backend `/rides` queries: the shape
consumed by `transformRide` in `api.service.ts` (backend name
`startBlock`, possibly missing frontend fields). -/
structure BackendRide where
  id : Int
  status : RideStatus
  requestTime : Option Int
  acceptTime : Option Int
  pickupTime : Option Int
  completionTime : Option Int
  pointsAwarded : Option Int
  startBlock : Option LocationBlock
  pickupBlock : Option LocationBlock
  destinationBlock : Option LocationBlock
  puller : Option Puller
  pickupLat : Option ℚ
  pickupLon : Option ℚ
  destinationLat : Option ℚ
  destinationLon : Option ℚ
  finalLat : Option ℚ
  finalLon : Option ℚ
deriving DecidableEq, Repr

/-- Model of `transformRide` from `api.service.ts`: spread the backend row and
rename `startBlock` to `pickupBlock`, preferring the block coordinates
(`||`, so a `0` coordinate also falls back) over the flat fields. -/
def transformRide (b : BackendRide) : Ride :=
  { id := b.id
    status := b.status
    requestTime := b.requestTime
    acceptTime := b.acceptTime
    pickupTime := b.pickupTime
    completionTime := b.completionTime
    pointsAwarded := b.pointsAwarded
    pickupBlock := b.startBlock <|> b.pickupBlock
    destinationBlock := b.destinationBlock
    puller := b.puller
    pickupLat := jsOrQ (b.startBlock.map (fun blk => blk.centerLat)) b.pickupLat
    pickupLon := jsOrQ (b.startBlock.map (fun blk => blk.centerLon)) b.pickupLon
    destinationLat := jsOrQ (b.destinationBlock.map (fun blk => blk.centerLat)) b.destinationLat
    destinationLon := jsOrQ (b.destinationBlock.map (fun blk => blk.centerLon)) b.destinationLon
    finalLat := b.finalLat
    finalLon := b.finalLon
    estimatedPoints := none }

/-- Body of the `/rides` list response (`rides` may be absent). -/
structure RidesResponse where
  rides : Option (List BackendRide)
  total : Int
deriving DecidableEq, Repr

/-- The `ride.puller?.id === pullerId` filter of `getCurrentRide`. -/
def ridesOfPuller (pullerId : Int) (resp : RidesResponse) : List BackendRide :=
  (resp.rides.getD []).filter (fun ride => ride.puller.any (fun p => p.id == pullerId))

/-- Model of `getCurrentRide` from `api.service.ts`: query ACCEPTED rides, filter
for this puller and return the first; otherwise query ACTIVE rides the
same way; otherwise `null`.  The whole body is wrapped in `try/catch`
and a failed request resolves to `null` instead of rethrowing.  The two
arguments are the resolved results of the two queries (the second query
is only issued when the first succeeds with no match). -/
def getCurrentRide (pullerId : Int)
    (acceptedResp activeResp : Except ApiError RidesResponse) : Option Ride :=
  match acceptedResp with
  | .error _ => none
  | .ok resp1 =>
    match ridesOfPuller pullerId resp1 with
    | ride :: _ => some (transformRide ride)
    | [] =>
      match activeResp with
      | .error _ => none
      | .ok resp2 =>
        match ridesOfPuller pullerId resp2 with
        | ride :: _ => some (transformRide ride)
        | [] => none

/-- Model of `getSearchingRides` from `api.service.ts`: map the SEARCHING rows
through `transformRide`; a failed request resolves to `[]` instead of
rethrowing. -/
def getSearchingRides (resp : Except ApiError RidesResponse) : List Ride :=
  match resp with
  | .error _ => []
  | .ok r => (r.rides.getD []).map transformRide

/-- One run of the proximity effect body in `PickupScreen`
(`RideScreens.tsx`): given the `isWithinProximity` outcome for the
current location sample and the `autoConfirmed` flag, the effect calls
`onConfirmPickup` (counted as `1`) and latches the flag exactly when
the sample is near and the flag is still unset. -/
def pickupAutoStep (autoConfirmed : Bool) (isNear : Bool) : Bool × Nat :=
  if isNear && !autoConfirmed then (true, 1) else (autoConfirmed, 0)

/-- Number of automatic `onConfirmPickup` invocations `PickupScreen`
makes over a sequence of location samples (each sample represented by
its `isWithinProximity` outcome against the unchanged pickup target),
starting from a given `autoConfirmed` flag. -/
def pickupAutoConfirmCount (samples : List Bool) (autoConfirmed : Bool) : Nat :=
  match samples with
  | [] => 0
  | isNear :: rest =>
    let step := pickupAutoStep autoConfirmed isNear
    step.2 + pickupAutoConfirmCount rest step.1

/-- One run of the proximity effect body in `ActiveRideScreen`
(`RideScreens.tsx`): same latch over the `autoCompleted` flag, calling
`onCompleteRide`. -/
def activeRideAutoStep (autoCompleted : Bool) (isNear : Bool) : Bool × Nat :=
  if isNear && !autoCompleted then (true, 1) else (autoCompleted, 0)

/-- Number of automatic `onCompleteRide` invocations `ActiveRideScreen`
makes over a sequence of location samples against the unchanged
destination target. -/
def activeRideAutoCompleteCount (samples : List Bool) (autoCompleted : Bool) : Nat :=
  match samples with
  | [] => 0
  | isNear :: rest =>
    let step := activeRideAutoStep autoCompleted isNear
    step.2 + activeRideAutoCompleteCount rest step.1

/-- JS `Math.atan2(y, x)` on (non-NaN) reals. -/
noncomputable def atan2 (y x : ℝ) : ℝ :=
  if 0 < x then Real.arctan (y / x)
  else if x < 0 ∧ 0 ≤ y then Real.arctan (y / x) + Real.pi
  else if x < 0 ∧ y < 0 then Real.arctan (y / x) - Real.pi
  else if x = 0 ∧ 0 < y then Real.pi / 2
  else if x = 0 ∧ y < 0 then -(Real.pi / 2)
  else 0

/-- Model of `calculateDistance` from `utils/geolocation.ts`: haversine
great-circle distance in meters on a sphere of radius 6371e3 m,
modelled over the reals. -/
noncomputable def calculateDistance (lat1 lon1 lat2 lon2 : ℝ) : ℝ :=
  let R : ℝ := 6371000
  let phi1 := lat1 * Real.pi / 180
  let phi2 := lat2 * Real.pi / 180
  let dphi := (lat2 - lat1) * Real.pi / 180
  let dlambda := (lon2 - lon1) * Real.pi / 180
  let a := Real.sin (dphi / 2) * Real.sin (dphi / 2) +
    Real.cos phi1 * Real.cos phi2 * (Real.sin (dlambda / 2) * Real.sin (dlambda / 2))
  let c := 2 * atan2 (Real.sqrt a) (Real.sqrt (1 - a))
  R * c

/-- Model of `isWithinProximity` from `utils/geolocation.ts`: the boolean
`distance <= radiusMeters`, as a proposition over the real model. -/
def isWithinProximity (userLat userLon targetLat targetLon radiusMeters : ℝ) : Prop :=
  calculateDistance userLat userLon targetLat targetLon ≤ radiusMeters

/-- A longitude (in degrees) on the equator whose haversine distance to
the origin is exactly 100 meters. -/
noncomputable def boundaryLon : ℝ := 18 / (6371 * Real.pi)

/-! Concrete sample data used by witnesses and counterexamples. -/

/-- Sample pickup block. -/
def blockA : LocationBlock :=
  { blockId := "B1", name := "Station", centerLat := 23, centerLon := 90 }

/-- Sample destination block. -/
def blockB : LocationBlock :=
  { blockId := "B2", name := "Market", centerLat := 24, centerLon := 91 }

/-- Sample offer with id 7 expiring at epoch millisecond 30000. -/
def offerA : RideRequest :=
  { id := 7, pickupBlock := blockA, destinationBlock := blockB
    estimatedPoints := 100, pickupLat := 23, pickupLon := 90
    expiresAt := 30000 }

/-- Duplicate delivery of offer 7 (same id, later deadline and a
different estimate, as a redelivery on the other channel would carry). -/
def offerB : RideRequest :=
  { offerA with expiresAt := 60000, estimatedPoints := 20 }

/-- Sample logged-in worker with 50 points. -/
def pullerA : Puller :=
  { id := 42, name := "W", phone := "01711111111", pointsBalance := 50
    isOnline := true, isActive := true, lastKnownLat := none, lastKnownLon := none }

/-- Sample held ActiveRide (status ACCEPTED, estimated reward 100). -/
def activeRideA : Ride :=
  { id := 101, status := .accepted, requestTime := some 0, acceptTime := some 0
    pickupTime := none, completionTime := none, pointsAwarded := none
    pickupBlock := some blockA, destinationBlock := some blockB
    puller := some pullerA
    pickupLat := some 23, pickupLon := some 90
    destinationLat := some 24, destinationLon := some 91
    finalLat := none, finalLon := none, estimatedPoints := some 100 }

/-- Server ride returned by a successful accept call. -/
def serverRideB : Ride :=
  { activeRideA with id := 102, estimatedPoints := none }

/-- A store in which the worker already holds `activeRideA` while offer
7 is still visible in the available set. -/
def storeWithActiveRide : AppStore :=
  { initialStore with
    puller := some pullerA
    currentRide := some activeRideA
    availableRides := [offerA] }

/-! Theorems settling the claims. -/

/-- C2: admission to the offer set is idempotent with first-write-wins:
admitting an offer whose id is already present leaves the store
unchanged (so the first-seen `expiresAt` is kept), and admitting the
same id twice yields exactly one entry for that id, namely the
first-admitted offer. -/
theorem addAvailableRide_first_write_wins (s : AppStore) (r dup : RideRequest)
    (hid : dup.id = r.id) :
    ((∃ x ∈ s.availableRides, x.id = dup.id) → addAvailableRide s dup = s) ∧
    ((∀ x ∈ s.availableRides, x.id ≠ r.id) →
      addAvailableRide (addAvailableRide s r) dup = addAvailableRide s r ∧
      (addAvailableRide (addAvailableRide s r) dup).availableRides.filter
        (fun x => x.id == r.id) = [r]) := by
  constructor
  · rintro ⟨x, hx, hxid⟩
    have hany : s.availableRides.any (fun y => y.id == dup.id) = true := by
      exact List.any_eq_true.mpr ⟨x, hx, by simpa using hxid⟩
    simp [addAvailableRide, hany]
  · intro hfresh
    have hany1 : s.availableRides.any (fun y => y.id == r.id) = false := by
      simp only [List.any_eq_false]
      intro x hx
      simpa using hfresh x hx
    have hs1 : addAvailableRide s r =
        { s with availableRides := s.availableRides ++ [r] } := by
      simp [addAvailableRide, hany1]
    have hany2 : (s.availableRides ++ [r]).any (fun y => y.id == dup.id) = true := by
      refine List.any_eq_true.mpr ⟨r, by simp, by simpa using hid.symm⟩
    constructor
    · rw [hs1]
      simp [addAvailableRide, hany2]
    · rw [hs1]
      simp only [addAvailableRide, hany2, if_pos]
      rw [List.filter_append]
      have h1 : s.availableRides.filter (fun x => x.id == r.id) = [] := by
        simp only [List.filter_eq_nil_iff]
        intro x hx
        simpa using hfresh x hx
      simp [h1]

/-- Closed witness for C2: withdrawing nothing, offer 7 delivered once
per channel (with differing deadlines) yields one entry keeping the
first-seen deadline. -/
theorem addAvailableRide_first_write_wins_witness :
    addAvailableRide (addAvailableRide initialStore offerA) offerB =
      addAvailableRide initialStore offerA ∧
    (addAvailableRide (addAvailableRide initialStore offerA) offerB).availableRides.filter
      (fun x => x.id == offerA.id) = [offerA] :=
  (addAvailableRide_first_write_wins initialStore offerA offerB (by decide)).2 (by decide)

/-- C5: the automatic arrived signal fires at most once per unchanged
target: over any sequence of location samples (each represented by its
`isWithinProximity` outcome), `PickupScreen` invokes `onConfirmPickup`
at most once and `ActiveRideScreen` invokes `onCompleteRide` at most
once, and never again once the latch flag is set — even if later
samples leave the radius and re-enter it. -/
theorem proximity_arrival_fires_at_most_once (samples : List Bool) :
    pickupAutoConfirmCount samples true = 0 ∧
    pickupAutoConfirmCount samples false ≤ 1 ∧
    activeRideAutoCompleteCount samples true = 0 ∧
    activeRideAutoCompleteCount samples false ≤ 1 := by
  have hpickup : ∀ l : List Bool, pickupAutoConfirmCount l true = 0 := by
    intro l
    induction l with
    | nil => rfl
    | cons b rest ih => simp [pickupAutoConfirmCount, pickupAutoStep, ih]
  have hactive : ∀ l : List Bool, activeRideAutoCompleteCount l true = 0 := by
    intro l
    induction l with
    | nil => rfl
    | cons b rest ih => simp [activeRideAutoCompleteCount, activeRideAutoStep, ih]
  refine ⟨hpickup samples, ?_, hactive samples, ?_⟩
  · induction samples with
    | nil => simp [pickupAutoConfirmCount]
    | cons b rest ih =>
      cases b with
      | false => simpa [pickupAutoConfirmCount, pickupAutoStep] using ih
      | true => simp [pickupAutoConfirmCount, pickupAutoStep, hpickup rest]
  · induction samples with
    | nil => simp [activeRideAutoCompleteCount]
    | cons b rest ih =>
      cases b with
      | false => simpa [activeRideAutoCompleteCount, activeRideAutoStep] using ih
      | true => simp [activeRideAutoCompleteCount, activeRideAutoStep, hactive rest]

/-- C9 counterexample: for an unparsable target date (`NaN`, modelled
as `none`) the code returns `NaN`, not `0`: JS `Math.max(0, NaN)` is
`NaN`, so `getTimeRemaining` does not return `0` there as the claim
states. -/
theorem getTimeRemaining_unparsable_counterexample :
    getTimeRemaining none 0 ≠ some 0 := by
  simp [getTimeRemaining]

/-- C9 amended: for a parsable target date `getTimeRemaining` returns
`max 0 (floor ((target - now) / 1000))`, hence never a negative count,
and in particular `0` for any deadline already in the past; for an
unparsable date it returns `NaN` (`none`), not `0`. -/
theorem getTimeRemaining_clamped (t now : Int) (hpast : t ≤ now) :
    getTimeRemaining (some t) now = some (max 0 (Int.fdiv (t - now) 1000)) ∧
    (∀ r : Int, getTimeRemaining (some t) now = some r → 0 ≤ r) ∧
    getTimeRemaining (some t) now = some 0 ∧
    getTimeRemaining none now = none := by
  refine ⟨rfl, ?_, ?_, rfl⟩
  · intro r hr
    have : r = max 0 (Int.fdiv (t - now) 1000) := by
      simpa [getTimeRemaining] using hr.symm
    rw [this]
    exact le_max_left 0 _
  · have hnum : t - now ≤ 0 := by omega
    have hdiv : Int.fdiv (t - now) 1000 ≤ 0 := by
      rcases hcase : t - now with k | m
      · rw [hcase, Int.ofNat_eq_coe] at hnum
        have hk : k = 0 := by omega
        subst hk
        decide
      · have : Int.fdiv (Int.negSucc m) 1000 = Int.negSucc (m / 1000) := rfl
        rw [this]
        exact le_of_lt (Int.negSucc_lt_zero _)
    simp [getTimeRemaining, max_eq_left hdiv]

/-- Closed witness for C9: a deadline 5 seconds in the past yields `0`
and never a negative count. -/
theorem getTimeRemaining_clamped_witness :
    getTimeRemaining (some 5000) 10000 = some 0 :=
  (getTimeRemaining_clamped 5000 10000 (by decide)).2.2.1

/-- C10: the REST seed queries never propagate a failure: whenever the
first `/rides` query is rejected — or the first succeeds with no
matching ride and the second is rejected — `getCurrentRide` resolves to
`null`, and a rejected SEARCHING query makes `getSearchingRides`
resolve to `[]`; neither rethrows. -/
theorem rest_seed_queries_never_propagate_failure
    (pullerId : Int) (msg1 msg2 msg3 : ApiError)
    (anyResp : Except ApiError RidesResponse) (okResp : RidesResponse)
    (hnomatch : ridesOfPuller pullerId okResp = []) :
    getCurrentRide pullerId (.error msg1) anyResp = none ∧
    getCurrentRide pullerId (.ok okResp) (.error msg2) = none ∧
    getSearchingRides (.error msg3) = [] := by
  refine ⟨rfl, ?_, rfl⟩
  simp [getCurrentRide, hnomatch]

/-- Closed witness for C10: both queries failing yields `null`, and a
failing SEARCHING query yields the empty list. -/
theorem rest_seed_queries_never_propagate_failure_witness :
    getCurrentRide 42 (.error "timeout") (.error "timeout") = none ∧
    getCurrentRide 42 (.ok { rides := none, total := 0 }) (.error "down") = none ∧
    getSearchingRides (Except.error "down") = [] :=
  rest_seed_queries_never_propagate_failure 42 "timeout" "down" "down"
    (.error "timeout") { rides := none, total := 0 } (by decide)

/-- C7 counterexample: an `OFFER_WITHDRAWN` (`ride_filled`) for offer 7
delivered before its creation is not remembered at all — the state
carries no record of it and no clock, so the creation of offer 7
delivered afterwards (in particular within any 10-second window) is
admitted into the offer set rather than suppressed. -/
theorem withdrawal_before_creation_counterexample :
    (addAvailableRide (handleRideFilled initialStore 7) offerA).availableRides
      = [offerA] := by decide

/-- C7 amended: a withdrawal for an id that is not in the offer set
only clears a matching pending request and leaves no trace; a creation
event for that id arriving afterwards — after any delay — is admitted
into the offer set (the code keeps no grace window). -/
theorem handleRideFilled_unknown_id_not_remembered
    (s : AppStore) (r : RideRequest)
    (hunknown : ∀ x ∈ s.availableRides, x.id ≠ r.id) :
    handleRideFilled s r.id = clearMatchingPending s r.id ∧
    r ∈ (addAvailableRide (handleRideFilled s r.id) r).availableRides := by
  have hremove : removeAvailableRide s r.id = s := by
    have : s.availableRides.filter (fun x => x.id != r.id) = s.availableRides := by
      refine List.filter_eq_self.mpr ?_
      intro x hx
      simpa using hunknown x hx
    simp [removeAvailableRide, this]
  constructor
  · simp [handleRideFilled, hremove]
  · have havail : (handleRideFilled s r.id).availableRides = s.availableRides := by
      simp only [handleRideFilled, hremove]
      unfold clearMatchingPending
      cases s.pendingRequest with
      | none => rfl
      | some p =>
        by_cases hp : p.id = r.id <;> simp [hp]
    have hany : (handleRideFilled s r.id).availableRides.any
        (fun x => x.id == r.id) = false := by
      rw [havail]
      simp only [List.any_eq_false]
      intro x hx
      simpa using hunknown x hx
    simp [addAvailableRide, hany]

/-- Closed witness for C7 amended: after a withdrawal of unknown id 7
on the empty store, creating offer 7 puts it into the offer set. -/
theorem handleRideFilled_unknown_id_not_remembered_witness :
    handleRideFilled initialStore offerA.id =
      clearMatchingPending initialStore offerA.id ∧
    offerA ∈ (addAvailableRide (handleRideFilled initialStore offerA.id)
      offerA).availableRides :=
  handleRideFilled_unknown_id_not_remembered initialStore offerA (by decide)

/-- C1 counterexample: with the worker already holding `activeRideA`
and offer 7 still visible, an accept from the modal is NOT rejected
locally: it issues an outbound accept request (the call list is
non-empty) and on success replaces the current ride. -/
theorem accept_while_active_counterexample :
    (handleAcceptRideFromModal storeWithActiveRide 7 (.ok serverRideB)).2 ≠ [] ∧
    (handleAcceptRideFromModal storeWithActiveRide 7 (.ok serverRideB)).1.currentRide ≠
      some activeRideA := by
  constructor <;> decide

/-- C1 amended: the modal accept handler is rejected locally without a
network call only when no puller is logged in or the offer id is not in
the available set; it performs no check of `currentRide` — whenever a
puller is logged in and the offer is present, the outbound accept
request is issued regardless of any held ActiveRide, and on success the
current ride is replaced by the server's ride (tagged with the offer's
estimate). -/
theorem handleAcceptRideFromModal_no_active_ride_guard
    (s : AppStore) (rideId : Int) (resp : Except ApiError Ride) :
    (s.puller = none → handleAcceptRideFromModal s rideId resp = (s, [])) ∧
    (s.availableRides.find? (fun r => r.id == rideId) = none →
      handleAcceptRideFromModal s rideId resp = (s, [])) ∧
    (∀ p req, s.puller = some p →
      s.availableRides.find? (fun r => r.id == rideId) = some req →
      (handleAcceptRideFromModal s rideId resp).2 =
        [{ startBlockId := req.pickupBlock.blockId
           destinationBlockId := req.destinationBlock.blockId
           pullerId := p.id }] ∧
      (∀ nr, resp = .ok nr →
        (handleAcceptRideFromModal s rideId resp).1.currentRide =
          some { nr with estimatedPoints := some req.estimatedPoints })) := by
  refine ⟨?_, ?_, ?_⟩
  · intro hp
    simp [handleAcceptRideFromModal, hp]
  · intro hfind
    cases hp : s.puller with
    | none => simp [handleAcceptRideFromModal, hp]
    | some p => simp [handleAcceptRideFromModal, hp, hfind]
  · intro p req hp hfind
    constructor
    · cases resp with
      | ok nr => simp [handleAcceptRideFromModal, hp, hfind]
      | error e => simp [handleAcceptRideFromModal, hp, hfind]
    · intro nr hnr
      subst hnr
      simp [handleAcceptRideFromModal, hp, hfind, removeAvailableRide]

/-- Closed witness for C1 amended: in the store holding `activeRideA`,
accepting offer 7 issues the accept call and installs the server's
ride. -/
theorem handleAcceptRideFromModal_no_active_ride_guard_witness :
    (handleAcceptRideFromModal storeWithActiveRide 7 (.ok serverRideB)).2 =
      [{ startBlockId := offerA.pickupBlock.blockId
         destinationBlockId := offerA.destinationBlock.blockId
         pullerId := pullerA.id }] ∧
    (handleAcceptRideFromModal storeWithActiveRide 7 (.ok serverRideB)).1.currentRide =
      some { serverRideB with estimatedPoints := some offerA.estimatedPoints } := by
  have h := (handleAcceptRideFromModal_no_active_ride_guard storeWithActiveRide 7
    (.ok serverRideB)).2.2 pullerA offerA (by decide) (by decide)
  exact ⟨h.1, h.2 serverRideB rfl⟩

/-- C3 counterexample: completing `activeRideA` (estimated reward 100,
worker balance 50) with a server response that omits `pointsAwarded`
credits 0, leaving the balance at 50 — not at 150 as the claimed
fallback to the offer's estimated reward would give. -/
theorem complete_points_fallback_counterexample :
    ((handleCompleteRide storeWithActiveRide 23 90 60000
        (.ok PartialRide.empty)).1.puller.map (fun p => p.pointsBalance) = some 50) ∧
    ¬ ((handleCompleteRide storeWithActiveRide 23 90 60000
        (.ok PartialRide.empty)).1.puller.map (fun p => p.pointsBalance) = some 150) := by
  constructor <;> decide

/-- C3 amended: on completing a ride, the locally credited award is the
server response's `pointsAwarded`, falling back to 0 (not to the
offer's estimated reward) when the server omits it; the new balance is
the old balance plus that award.  The estimated reward is only
forwarded to the server as the `pointsOverride` field of the complete
request. -/
theorem handleCompleteRide_credits_server_points
    (s : AppStore) (mockLat mockLon : ℚ) (now : Int) (resp : PartialRide)
    (ride : Ride) (p : Puller)
    (hr : s.currentRide = some ride) (hp : s.puller = some p) :
    (handleCompleteRide s mockLat mockLon now (.ok resp)).1.puller =
      some { p with pointsBalance := p.pointsBalance + resp.pointsAwarded.getD 0 } ∧
    (handleCompleteRide s mockLat mockLon now (.ok resp)).2 =
      [{ rideId := ride.id, finalLat := mockLat, finalLon := mockLon
         pointsOverride := (ride.estimatedPoints <|> ride.pointsAwarded).map
           (fun v => max 0 v) }] := by
  constructor <;> simp [handleCompleteRide, hr, hp]

/-- Closed witness for C3 amended: with a server award of 25 the
balance moves from 50 to 75 and the request carries the 100-point
override. -/
theorem handleCompleteRide_credits_server_points_witness :
    (handleCompleteRide storeWithActiveRide 23 90 60000
      (.ok { PartialRide.empty with pointsAwarded := some 25 })).1.puller =
      some { pullerA with pointsBalance := pullerA.pointsBalance + 25 } ∧
    (handleCompleteRide storeWithActiveRide 23 90 60000
      (.ok { PartialRide.empty with pointsAwarded := some 25 })).2 =
      [{ rideId := activeRideA.id, finalLat := 23, finalLon := 90
         pointsOverride := some 100 }] := by
  have h := handleCompleteRide_credits_server_points storeWithActiveRide 23 90 60000
    { PartialRide.empty with pointsAwarded := some 25 } activeRideA pullerA rfl rfl
  exact ⟨h.1, by rw [h.2]; decide⟩

/-- C8: confirming pickup merges the server response into the current
ride but preserves every locally known geographic field unchanged —
`pickupLat`, `pickupLon`, `destinationLat`, `destinationLon`,
`pickupBlock` and `destinationBlock` of the merged ride equal the local
values for every server payload, including payloads that omit or alter
those fields — while non-geographic fields are taken from the server
response whenever it provides them. -/
theorem handleConfirmPickup_preserves_geography
    (s : AppStore) (cur : Ride) (upd : PartialRide)
    (hc : s.currentRide = some cur) :
    ∃ m, (handleConfirmPickup s (.ok upd)).currentRide = some m ∧
      m.pickupLat = cur.pickupLat ∧ m.pickupLon = cur.pickupLon ∧
      m.destinationLat = cur.destinationLat ∧
      m.destinationLon = cur.destinationLon ∧
      m.pickupBlock = cur.pickupBlock ∧
      m.destinationBlock = cur.destinationBlock ∧
      m.id = upd.id.getD cur.id ∧
      m.status = upd.status.getD cur.status ∧
      m.pickupTime = (upd.pickupTime <|> cur.pickupTime) ∧
      m.pointsAwarded = (upd.pointsAwarded <|> cur.pointsAwarded) := by
  have hmerged : (handleConfirmPickup s (.ok upd)).currentRide =
      some { mergeSpread cur upd with
             pickupLat := cur.pickupLat
             pickupLon := cur.pickupLon
             destinationLat := cur.destinationLat
             destinationLon := cur.destinationLon
             pickupBlock := cur.pickupBlock
             destinationBlock := cur.destinationBlock } := by
    simp [handleConfirmPickup, hc]
  refine ⟨_, hmerged, ?_⟩
  simp [mergeSpread]

/-- Closed witness for C8: a pickup response that blanks the
coordinates and moves the status to ACTIVE leaves the coordinates and
blocks of `activeRideA` intact while adopting the server status. -/
theorem handleConfirmPickup_preserves_geography_witness :
    ∃ m, (handleConfirmPickup storeWithActiveRide
        (.ok { PartialRide.empty with status := some .active, pickupTime := some 45000 })).currentRide
        = some m ∧
      m.pickupLat = activeRideA.pickupLat ∧ m.pickupLon = activeRideA.pickupLon ∧
      m.destinationLat = activeRideA.destinationLat ∧
      m.destinationLon = activeRideA.destinationLon ∧
      m.pickupBlock = activeRideA.pickupBlock ∧
      m.destinationBlock = activeRideA.destinationBlock ∧
      m.id = activeRideA.id ∧ m.status = RideStatus.active ∧
      m.pickupTime = some 45000 ∧ m.pointsAwarded = activeRideA.pointsAwarded :=
  handleConfirmPickup_preserves_geography storeWithActiveRide activeRideA
    { PartialRide.empty with status := some .active, pickupTime := some 45000 } rfl

/-- Clearing a matching pending request does not touch the offer set. -/
theorem clearMatchingPending_availableRides (s : AppStore) (i : Int) :
    (clearMatchingPending s i).availableRides = s.availableRides := by
  unfold clearMatchingPending
  cases s.pendingRequest with
  | none => rfl
  | some p => by_cases hp : p.id = i <;> simp [hp]

/-- One sweep iteration only removes offers. -/
theorem expireStep_availableRides_subset (now : Int) (s : AppStore)
    (a x : RideRequest) (hx : x ∈ (expireStep now s a).availableRides) :
    x ∈ s.availableRides := by
  unfold expireStep at hx
  by_cases h : a.expiresAt ≤ now
  · rw [if_pos h, clearMatchingPending_availableRides] at hx
    simp only [removeAvailableRide, List.mem_filter] at hx
    exact hx.1
  · rwa [if_neg h] at hx

/-- The whole sweep only removes offers. -/
theorem foldl_expireStep_subset (now : Int) (l : List RideRequest)
    (s : AppStore) (x : RideRequest)
    (hx : x ∈ (l.foldl (expireStep now) s).availableRides) :
    x ∈ s.availableRides := by
  induction l generalizing s with
  | nil => exact hx
  | cons a t ih => exact expireStep_availableRides_subset now s a x (ih _ hx)

/-- Every offer of the sweep's snapshot whose deadline has been reached
has its id removed by the sweep (and nothing re-adds it). -/
theorem foldl_expireStep_removes (now : Int) (l : List RideRequest)
    (s : AppStore) (r : RideRequest) (hr : r ∈ l) (hexp : r.expiresAt ≤ now) :
    ∀ x ∈ (l.foldl (expireStep now) s).availableRides, x.id ≠ r.id := by
  induction l generalizing s with
  | nil => cases hr
  | cons a t ih =>
    intro x hx
    rw [List.foldl_cons] at hx
    rcases List.mem_cons.mp hr with heq | htail
    · subst heq
      have hx' : x ∈ (expireStep now s r).availableRides :=
        foldl_expireStep_subset now t _ x hx
      unfold expireStep at hx'
      rw [if_pos hexp, clearMatchingPending_availableRides] at hx'
      simp only [removeAvailableRide, List.mem_filter, bne_iff_ne, ne_eq,
        decide_not, Bool.not_eq_eq_eq_not, Bool.not_true, decide_eq_false_iff_not] at hx'
      exact hx'.2
    · exact ih (expireStep now s a) htail x hx

/-- An offer whose id matches no deadline-reached element of the
snapshot survives the sweep. -/
theorem foldl_expireStep_keeps (now : Int) (l : List RideRequest)
    (s : AppStore) (r : RideRequest) (hr : r ∈ s.availableRides)
    (hsafe : ∀ e ∈ l, e.expiresAt ≤ now → e.id ≠ r.id) :
    r ∈ (l.foldl (expireStep now) s).availableRides := by
  induction l generalizing s with
  | nil => exact hr
  | cons a t ih =>
    apply ih
    · unfold expireStep
      by_cases h : a.expiresAt ≤ now
      · rw [if_pos h, clearMatchingPending_availableRides]
        simp only [removeAvailableRide, List.mem_filter, bne_iff_ne, ne_eq,
          decide_not, Bool.not_eq_eq_eq_not, Bool.not_true, decide_eq_false_iff_not]
        exact ⟨hr, (hsafe a (List.mem_cons_self a t) h).symm⟩
      · rwa [if_neg h]
    · intro e he hee
      exact hsafe e (List.mem_cons_of_mem a he) hee

/-- C6: the sweep needs no explicit withdrawal event — assuming the
offer set's at-most-one-entry-per-id invariant, a sweep at time `now`
removes every offer whose `expiresAt` deadline has been reached
(`expiresAt ≤ now`) and never removes an offer whose deadline is still
in the future (`now < expiresAt`); in particular an offer with
`expiresAt = t₀ + 30s` is still in the set when the sweep runs at
`t₀ + 29s` and no longer in it when it runs at `t₀ + 31s` (the timer
fires every second, so a sweep does run in between). -/
theorem checkExpiredRides_sweep (now : Int) (s : AppStore) (r : RideRequest)
    (hnodup : (s.availableRides.map (fun x => x.id)).Nodup)
    (hmem : r ∈ s.availableRides) :
    (r.expiresAt ≤ now →
      ∀ x ∈ (checkExpiredRides now s).availableRides, x.id ≠ r.id) ∧
    (now < r.expiresAt → r ∈ (checkExpiredRides now s).availableRides) := by
  constructor
  · intro hexp
    exact foldl_expireStep_removes now s.availableRides s r hmem hexp
  · intro hlive
    apply foldl_expireStep_keeps now s.availableRides s r hmem
    intro e he hee heid
    have heq : e = r := List.inj_on_of_nodup_map hnodup he hmem heid
    subst heq
    omega

/-- Closed witness for C6: offer 7 expiring at 30000 ms is still
present after the sweep at 29000 ms and its id is gone after the sweep
at 31000 ms. -/
theorem checkExpiredRides_sweep_witness :
    offerA ∈ (checkExpiredRides 29000
      { initialStore with availableRides := [offerA] }).availableRides ∧
    ∀ x ∈ (checkExpiredRides 31000
      { initialStore with availableRides := [offerA] }).availableRides,
      x.id ≠ offerA.id :=
  ⟨(checkExpiredRides_sweep 29000 { initialStore with availableRides := [offerA] }
      offerA (by decide) (by decide)).2 (by decide),
   (checkExpiredRides_sweep 31000 { initialStore with availableRides := [offerA] }
      offerA (by decide) (by decide)).1 (by decide)⟩

/-- Haversine on the equator: for a non-negative longitude small enough
that the half-angle stays below π/2, the distance from the origin is
exactly `R` times the longitude in radians. -/
theorem calculateDistance_zero_lat (lon : ℝ) (h0 : 0 ≤ lon)
    (hlt : lon * Real.pi / 360 < Real.pi / 2) :
    calculateDistance 0 0 0 lon = 6371000 * (lon * Real.pi / 180) := by
  have hpi := Real.pi_pos
  set t : ℝ := lon * Real.pi / 360 with ht
  have ht0 : 0 ≤ t := by
    rw [ht]
    positivity
  have htpi : t ≤ Real.pi := by linarith
  have hsin : 0 ≤ Real.sin t := Real.sin_nonneg_of_nonneg_of_le_pi ht0 htpi
  have hcos : 0 < Real.cos t := Real.cos_pos_of_mem_Ioo ⟨by linarith, hlt⟩
  have harg : lon * Real.pi / 180 / 2 = t := by
    rw [ht]; ring
  unfold calculateDistance
  simp only [zero_mul, zero_div, sub_zero, sub_self, Real.sin_zero, Real.cos_zero,
    mul_zero, zero_add, one_mul, mul_one, harg]
  rw [Real.sqrt_mul_self hsin]
  have h1 : 1 - Real.sin t * Real.sin t = Real.cos t * Real.cos t := by
    have hpyth := Real.sin_sq_add_cos_sq t
    nlinarith [hpyth]
  rw [h1, Real.sqrt_mul_self hcos.le]
  have hatan : atan2 (Real.sin t) (Real.cos t) = t := by
    unfold atan2
    rw [if_pos hcos, ← Real.tan_eq_sin_div_cos]
    exact Real.arctan_tan (by linarith) hlt
  rw [hatan, ht]
  ring

/-- The sample point `boundaryLon` lies at great-circle distance
exactly 100 meters from the origin. -/
theorem calculateDistance_equator_boundary :
    calculateDistance 0 0 0 boundaryLon = 100 := by
  have hpi := Real.pi_pos
  have hpi3 := Real.pi_gt_three
  have hpine : Real.pi ≠ 0 := ne_of_gt hpi
  unfold boundaryLon
  have h0 : 0 ≤ 18 / (6371 * Real.pi) := by positivity
  have hlt : 18 / (6371 * Real.pi) * Real.pi / 360 < Real.pi / 2 := by
    have h1 : 18 / (6371 * Real.pi) * Real.pi / 360 = 1 / 127420 := by
      field_simp
      ring
    rw [h1]
    linarith
  rw [calculateDistance_zero_lat _ h0 hlt]
  field_simp
  ring

/-- C4 counterexample: a sample location at great-circle distance
exactly 100 meters from the target DOES count as arrived — the
proximity predicate (`distance <= radiusMeters`) is true, not false, at
exactly the radius boundary. -/
theorem proximity_boundary_counterexample :
    calculateDistance 0 0 0 boundaryLon = 100 ∧
    isWithinProximity 0 0 0 boundaryLon 100 :=
  ⟨calculateDistance_equator_boundary,
   le_of_eq calculateDistance_equator_boundary⟩

/-- C4 amended: the proximity predicate is boundary-inclusive: a
location whose great-circle distance to the target equals the radius
(in particular exactly 100 meters for the fixed 100-meter radius)
counts as arrived; only locations strictly beyond the radius do not. -/
theorem isWithinProximity_boundary_inclusive
    (userLat userLon targetLat targetLon radius : ℝ)
    (h : calculateDistance userLat userLon targetLat targetLon = radius) :
    isWithinProximity userLat userLon targetLat targetLon radius :=
  le_of_eq h

/-- Closed witness for C4 amended: the boundary point at exactly 100
meters is within proximity. -/
theorem isWithinProximity_boundary_inclusive_witness :
    isWithinProximity 0 0 0 boundaryLon 100 :=
  isWithinProximity_boundary_inclusive 0 0 0 boundaryLon 100
    calculateDistance_equator_boundary

end AerasPuller
